import Mathlib

/-!
Verification development for the moonwell flash-loan repository.

The definitions below are shallow embeddings of the repository's code:

* `contracts/ProductionFlashLoanExecutor.sol` (and the identical-semantics
  variant in `unnamed/part_001`): the atomic flash-loan settlement unit,
  its fee schedule and its metric updates.  Solidity `uint256` arithmetic
  is modelled with `Nat` (checked arithmetic in Solidity 0.8 reverts on
  underflow; every subtraction below is guarded exactly as in the source).
  A revert is an `Except.error`; `runReceiveFlashLoan` applies the EVM
  revert semantics (state restored, no transfers).
* `src/institutional/risk/InstitutionalRiskManager.js`: admission control.
  JS `BigInt` amounts are `Nat`, JS float scores are `ℚ`, `Date.now()`
  timestamps are `Nat` milliseconds, and the `Math.random()*100` market
  samples are oracle parameters.
* `bots/execution-bot.js`: the scheduler queue, the retry loop and the
  DIA-price profit estimation.
* `src/institutional/analytics/InstitutionalAnalytics.js`: the drawdown
  computation over the retained execution history (JS floats as `ℚ`).
-/

namespace MoonwellFlash

/-! ## Contract model: `FlashLoanExecutor` -/

/-- User tiers, `enum UserTier { STANDARD, PREMIUM, INSTITUTIONAL, WHALE }`. -/
inductive UserTier where
  | STANDARD
  | PREMIUM
  | INSTITUTIONAL
  | WHALE
deriving DecidableEq, Repr

/-- The fields of `struct UserProfile` that the settlement path touches
(`isAuthorized` gates entry in `executeEnterpriseOperation` and is not read
inside `receiveFlashLoan`). -/
structure UserProfile where
  tier : UserTier
  totalVolume : Nat
  totalProfit : Nat
  successfulOperations : Nat
  failedOperations : Nat
  lastOperationTime : Nat
deriving DecidableEq, Repr

/-- The contract storage read or written by `receiveFlashLoan`, for the
single initiating user decoded from `userData`. -/
structure ExecutorState where
  user : UserProfile
  platformFeeRate : Nat
  totalVolumeProcessed : Nat
  totalProfitsGenerated : Nat
  totalOperationsExecuted : Nat
deriving DecidableEq, Repr

/-- One ERC-20 `transfer(recipient, amount)` made by the contract. -/
structure Transfer where
  recipient : String
  amount : Nat
deriving DecidableEq, Repr

/-- Constant `uint256 public constant PROFIT_THRESHOLD = 5_000e6;` -/
def PROFIT_THRESHOLD : Nat := 5000000000

/-- Models `_calculateFees(user, grossProfit)`: tier-discounted platform fee,
`grossProfit * rate / 10000` with `rate` reduced to 50% / 70% / 90% of
`platformFeeRate` for WHALE / INSTITUTIONAL / PREMIUM (integer division,
exactly as in the source). -/
def calculateFees (tier : UserTier) (platformFeeRate grossProfit : Nat) : Nat :=
  let rate : Nat :=
    match tier with
    | .WHALE => platformFeeRate * 50 / 100
    | .INSTITUTIONAL => platformFeeRate * 70 / 100
    | .PREMIUM => platformFeeRate * 90 / 100
    | .STANDARD => platformFeeRate
  grossProfit * rate / 10000

/-- Models `_updateUserMetrics(user, volume, profit, true)`: the success-path
metric update (the settlement path always passes `success = true`). -/
def updateUserMetrics (s : ExecutorState) (volume profit now : Nat) : ExecutorState :=
  { s with
    user := { s.user with
      totalVolume := s.user.totalVolume + volume
      totalProfit := s.user.totalProfit + profit
      lastOperationTime := now
      successfulOperations := s.user.successfulOperations + 1 }
    totalVolumeProcessed := s.totalVolumeProcessed + volume
    totalProfitsGenerated := s.totalProfitsGenerated + profit
    totalOperationsExecuted := s.totalOperationsExecuted + 1 }

/-- Models `_processFlashLoanComplete(data)`: fee split, repayment and payout
transfers, then the metric update.  The transfers are listed in source
order: repayment to the Balancer vault, the fee to `feeRecipient` when
positive, the net profit to the user. -/
def processFlashLoanComplete (s : ExecutorState)
    (amount totalRepayment grossProfit now : Nat) :
    ExecutorState × List Transfer :=
  let fees := calculateFees s.user.tier s.platformFeeRate grossProfit
  let netProfit := grossProfit - fees
  let transfers :=
    [Transfer.mk "balancerVault" totalRepayment]
      ++ (if fees > 0 then [Transfer.mk "feeRecipient" fees] else [])
      ++ [Transfer.mk "user" netProfit]
  (updateUserMetrics s amount netProfit now, transfers)

/-- Models `receiveFlashLoan(tokens, amounts, feeAmounts, userData)` for the
first (and only used) token position.  `finalBalance` is the balance
returned by `_executeStrategy`, an external-call result taken as an
oracle input.  A failed `require` is an `Except.error`, which on-chain
reverts the whole transaction. -/
def receiveFlashLoan (s : ExecutorState)
    (amount feeAmount finalBalance now : Nat) :
    Except String (ExecutorState × List Transfer) :=
  let totalRepayment := amount + feeAmount
  if finalBalance < totalRepayment then
    .error "Repayment fail"
  else
    let grossProfit := finalBalance - totalRepayment
    if grossProfit < PROFIT_THRESHOLD then
      .error "Low profit"
    else
      .ok (processFlashLoanComplete s amount totalRepayment grossProfit now)

/-- EVM revert semantics on top of `receiveFlashLoan`: an error restores
the pre-call state and performs no transfer; the `Bool` records whether
the unit settled. -/
def runReceiveFlashLoan (s : ExecutorState)
    (amount feeAmount finalBalance now : Nat) :
    ExecutorState × List Transfer × Bool :=
  match receiveFlashLoan s amount feeAmount finalBalance now with
  | .error _ => (s, [], false)
  | .ok (s', ts) => (s', ts, true)

/-- Models `setPlatformFeeRate(newFeeRate)`: `require(newFeeRate <= 1000)`. -/
def setPlatformFeeRate (s : ExecutorState) (newFeeRate : Nat) :
    Except String ExecutorState :=
  if newFeeRate ≤ 1000 then .ok { s with platformFeeRate := newFeeRate }
  else .error "Fee too high"

/-- The per-tier percentage of the base fee rate actually charged, as the
spec states it: WHALE pays 50%, INSTITUTIONAL 70%, PREMIUM 90%,
STANDARD 100%. -/
def tierRatePercent : UserTier → Nat
  | .WHALE => 50
  | .INSTITUTIONAL => 70
  | .PREMIUM => 90
  | .STANDARD => 100

/-- The platform fee as the spec words it: gross profit × (base fee rate
reduced by the user's tier discount) / 10000. -/
def specPlatformFee (tier : UserTier) (baseRate grossProfit : Nat) : Nat :=
  grossProfit * (baseRate * tierRatePercent tier / 100) / 10000

/-! ## Risk manager model: `InstitutionalRiskManager` -/

/-- The `riskLimits` configuration set in the constructor.  `maxFailureRate`
is the JS float `0.1`, modelled as the exact rational; amounts are 6-decimal
fixed-point integers, `maxGasPrice` is in wei. -/
structure RiskLimits where
  maxPositionSize : Nat
  maxDailyVolume : Nat
  minProfitThreshold : Nat
  maxGasPrice : Nat
  emergencyThreshold : Nat
  maxConcurrentOperations : Nat
  maxFailureRate : ℚ
  volatilityThreshold : ℚ
  liquidityThreshold : ℚ
deriving DecidableEq, Repr

/-- The constructor's default limits: $1M position, $10M daily, $5K minimum
profit, 100 gwei gas ceiling, $100K emergency stop, 5 concurrent, 10%
failure rate, volatility/liquidity thresholds 50. -/
def defaultRiskLimits : RiskLimits where
  maxPositionSize := 1000000000000
  maxDailyVolume := 10000000000000
  minProfitThreshold := 5000000000
  maxGasPrice := 100000000000
  emergencyThreshold := 100000000000
  maxConcurrentOperations := 5
  maxFailureRate := 1 / 10
  volatilityThreshold := 50
  liquidityThreshold := 50

/-- The fields of `this.riskState` read or written on the admission path.
`recentLosses` keeps only the loss timestamps (the filter in
`detectSuspiciousLossPattern` reads nothing else). -/
structure RiskState where
  dailyVolume : Nat
  recentLosses : List Nat
  circuitBreakerActive : Bool
  circuitBreakerReason : Option String
  circuitBreakerTimestamp : Option Nat
  lastResetTime : Nat
  currentOperations : Nat
  failureCount : Nat
  totalOperations : Nat
  marketCondition : String
deriving DecidableEq, Repr

/-- The fields of `this.marketMetrics` read by
`calculateAdjustedProfitThreshold` (JS numbers as rationals). -/
structure MarketMetrics where
  volatilityScore : ℚ
  networkCongestion : ℚ
deriving DecidableEq, Repr

/-- The three `Math.random() * 100` draws made inside
`assessMarketConditions`, passed in as an oracle. -/
structure MarketSample where
  volatility : ℚ
  liquidity : ℚ
  congestion : ℚ
deriving DecidableEq, Repr

/-- The fields of an opportunity that `validateOpportunity` reads.  A JS
falsy `amount`/`estimatedProfit` (missing field, `0` or `0n`) is modelled
as `0`. -/
structure RMOpportunity where
  amount : Nat
  estimatedProfit : Nat
deriving DecidableEq, Repr

/-- The result object built by `validateOpportunity` (`adjustedParams` and
`recommendations` are returned to the caller but never affect `passed` or
`reasons`; they are omitted). -/
structure RiskAssessment where
  passed : Bool
  reasons : List String
  riskScore : Nat
deriving DecidableEq, Repr

/-- 24 hours in milliseconds. -/
def dayMs : Nat := 86400000

/-- Models `resetDailyLimitsIfNeeded()`: reset the rolling daily volume and the
reset timestamp when at least one 24h day elapsed since the last reset.
The JS float test `(now - last) / 86400000 >= 1` on integer millisecond
timestamps is equivalent to `now - last >= 86400000`; JS would yield a
negative quotient for `now < last` where truncated `Nat` subtraction
yields `0` — no reset in either model. -/
def resetDailyLimitsIfNeeded (st : RiskState) (now : Nat) : RiskState :=
  if dayMs ≤ now - st.lastResetTime then
    { st with dailyVolume := 0, lastResetTime := now }
  else
    st

/-- Whether a call of `resetDailyLimitsIfNeeded` at time `now` observes a
reset. -/
def resetOccurs (st : RiskState) (now : Nat) : Bool :=
  dayMs ≤ now - st.lastResetTime

/-- Models `activateCircuitBreaker(reason)`: set the flag, the reason and the
activation timestamp.  (The `setTimeout` auto-expiry after 10 minutes is a
real-time effect outside this state model.) -/
def activateCircuitBreaker (st : RiskState) (reason : String) (now : Nat) :
    RiskState :=
  { st with
    circuitBreakerActive := true
    circuitBreakerReason := some reason
    circuitBreakerTimestamp := some now }

/-- Models `detectSystemicRisk()`: `failureCount / max(totalOperations, 1) >
maxFailureRate` (exact rational arithmetic for the JS float division). -/
def detectSystemicRisk (limits : RiskLimits) (st : RiskState) : Bool :=
  limits.maxFailureRate < (st.failureCount : ℚ) / (max st.totalOperations 1 : Nat)

/-- Models `detectSuspiciousLossPattern()`: more than 3 recorded losses within the
trailing hour. -/
def detectSuspiciousLossPattern (st : RiskState) (now : Nat) : Bool :=
  3 < (st.recentLosses.filter (fun ts => now - ts < 3600000)).length

/-- Models `calculateAdjustedProfitThreshold()`: scale the base minimum profit up
by 150% under elevated volatility and by a further 130% under network
congestion (`BigInt` integer division, exactly as in the source). -/
def calculateAdjustedProfitThreshold (limits : RiskLimits)
    (metrics : MarketMetrics) : Nat :=
  let t1 := if 50 < metrics.volatilityScore
    then limits.minProfitThreshold * 150 / 100
    else limits.minProfitThreshold
  if 70 < metrics.networkCongestion then t1 * 130 / 100 else t1

/-- The result of `assessMarketConditions`. -/
structure MarketAssessment where
  score : Nat
  circuitBreakerTriggered : Bool
  newState : RiskState
deriving Repr

/-- Models `assessMarketConditions(opportunity)`: additive score from the three
sampled signals; the breaker trips when the call's own score exceeds 70
(unreachable: the three contributions sum to at most 60) or the systemic
failure-rate check fires, in which case `activateCircuitBreaker` runs. -/
def assessMarketConditions (limits : RiskLimits) (st : RiskState)
    (sample : MarketSample) (now : Nat) : MarketAssessment :=
  let st1 := if limits.volatilityThreshold < sample.volatility
    then { st with marketCondition := "high_volatility" }
    else st
  let score :=
    (if limits.volatilityThreshold < sample.volatility then 25 else 0)
      + (if sample.liquidity < limits.liquidityThreshold then 20 else 0)
      + (if 80 < sample.congestion then 15 else 0)
  let triggered := 70 < score || detectSystemicRisk limits st1
  { score := score
    circuitBreakerTriggered := triggered
    newState := if triggered
      then activateCircuitBreaker st1 "High systemic risk detected" now
      else st1 }

/-- Models `assessGasConditions(network)`: the source hardcodes the current gas
price to 25 gwei; the score is 30 when it exceeds `maxGasPrice` and the
hard rejection fires when it exceeds twice `maxGasPrice`. -/
def assessGasConditions (limits : RiskLimits) : Nat × Bool :=
  let currentGasPrice : Nat := 25000000000
  (if limits.maxGasPrice < currentGasPrice then 30 else 0,
   limits.maxGasPrice * 2 < currentGasPrice)

/-- Append a rejection to an accumulating assessment. -/
def rejectWith (a : RiskAssessment) (reason : String) (penalty : Nat) :
    RiskAssessment :=
  { a with
    passed := false
    reasons := a.reasons ++ [reason]
    riskScore := a.riskScore + penalty }

/-- Models `validateOpportunity(opportunity)`: the admission gate, check for
check in source order.  Returns the assessment together with the updated
risk state (daily reset, market-condition field, breaker activation). -/
def validateOpportunity (limits : RiskLimits) (metrics : MarketMetrics)
    (st : RiskState) (now : Nat) (sample : MarketSample)
    (opp : RMOpportunity) : RiskAssessment × RiskState :=
  if opp.amount = 0 ∨ opp.estimatedProfit = 0 then
    ({ passed := false, reasons := ["Invalid opportunity format"], riskScore := 100 }, st)
  else
    let a0 : RiskAssessment := { passed := true, reasons := [], riskScore := 0 }
    let a1 := if limits.maxPositionSize < opp.amount
      then rejectWith a0 "Position size exceeds institutional limit" 50
      else a0
    let st1 := resetDailyLimitsIfNeeded st now
    let a2 := if limits.maxDailyVolume < st1.dailyVolume + opp.amount
      then rejectWith a1 "Daily volume limit exceeded" 30
      else a1
    let a3 := if opp.estimatedProfit < calculateAdjustedProfitThreshold limits metrics
      then rejectWith a2 "Profit below adjusted threshold" 20
      else a2
    let m := assessMarketConditions limits st1 sample now
    let a4 := { a3 with riskScore := a3.riskScore + m.score }
    let a5 := if m.circuitBreakerTriggered
      then { a4 with
             passed := false
             reasons := a4.reasons ++ ["Circuit breaker active due to adverse market conditions"] }
      else a4
    let st2 := m.newState
    let g := assessGasConditions limits
    let a6 := { a5 with riskScore := a5.riskScore + g.1 }
    let a7 := if g.2
      then { a6 with
             passed := false
             reasons := a6.reasons ++ ["Gas prices exceeding profitability threshold"] }
      else a6
    let a8 := if detectSuspiciousLossPattern st2 now
      then rejectWith a7 "Suspicious loss pattern detected" 40
      else a7
    let a9 := if limits.maxConcurrentOperations ≤ st2.currentOperations
      then rejectWith a8 "Maximum concurrent operations limit reached" 25
      else a8
    (a9, st2)

/-! ## Scheduler model: `FlashLoanExecutionBot` -/

/-- Priority classes used by the queue comparator. -/
inductive Priority where
  | HIGH
  | MEDIUM
  | LOW
deriving DecidableEq, Repr

/-- Models `const priorityOrder = { HIGH: 3, MEDIUM: 2, LOW: 1 };` -/
def priorityOrder : Priority → Nat
  | .HIGH => 3
  | .MEDIUM => 2
  | .LOW => 1

/-- The fields of a queued opportunity that the sort comparator reads
(`estimatedProfit` is a `BigInt` in 6-decimal units). -/
structure QueuedOpportunity where
  priority : Priority
  estimatedProfit : Int
deriving DecidableEq, Repr

/-- Whether `a` may precede `b` under the source comparator
`(a, b) => priorityOrder[b.priority] - priorityOrder[a.priority]` with the
profit difference `Number(b.estimatedProfit - a.estimatedProfit)` as tie
break: exactly when the comparator value is `≤ 0`. -/
def queueLE (a b : QueuedOpportunity) : Bool :=
  priorityOrder b.priority < priorityOrder a.priority
    || (priorityOrder b.priority == priorityOrder a.priority
        && b.estimatedProfit ≤ a.estimatedProfit)

/-- Models `this.executionQueue.sort(comparator)`: a stable sort under the
comparator order (JS `Array.prototype.sort` is stable). -/
def sortQueue (q : List QueuedOpportunity) : List QueuedOpportunity :=
  q.mergeSort queueLE

/-- The queue insertion step of `addToExecutionQueue`: push, then re-sort
the whole queue. -/
def enqueue (q : List QueuedOpportunity) (opp : QueuedOpportunity) :
    List QueuedOpportunity :=
  sortQueue (q ++ [opp])

/-- Models `this.executionQueue.shift()` in the `startBot` polling loop: remove
and return the head. -/
def dequeue (q : List QueuedOpportunity) :
    Option (QueuedOpportunity × List QueuedOpportunity) :=
  match q with
  | [] => none
  | h :: t => some (h, t)

/-- The bot state touched by `executeWithRetry` (the execution queue and
`this.executionStats`). -/
structure BotState where
  executionQueue : List QueuedOpportunity
  totalExecuted : Nat
  totalProfit : Int
  successfulExecutions : Nat
  failedExecutions : Nat
deriving DecidableEq, Repr

/-- Fields `maxRetries` / `retryDelayMs` from the constructor (defaults 3 and
3000). -/
structure RetryConfig where
  maxRetries : Nat
  retryDelayMs : Nat
deriving DecidableEq, Repr

/-- Models `executeWithRetry(opportunity, attempt)` specialised to an opportunity
whose every execution attempt fails (`result.success` false every time):
each failing attempt increments `failedExecutions`; while
`attempt < maxRetries` the bot awaits `retryDelayMs * attempt` and recurses
with `attempt + 1` (the `return` skips the `totalExecuted++` below it);
the final attempt falls through to `totalExecuted++` and the function
returns without touching the queue.  The returned list collects the
backoff delays in order. -/
def executeWithRetryFail (cfg : RetryConfig) (s : BotState) (attempt : Nat) :
    BotState × List Nat :=
  let s1 := { s with failedExecutions := s.failedExecutions + 1 }
  if attempt < cfg.maxRetries then
    let r := executeWithRetryFail cfg s1 (attempt + 1)
    (r.1, cfg.retryDelayMs * attempt :: r.2)
  else
    ({ s1 with totalExecuted := s1.totalExecuted + 1 }, [])
termination_by cfg.maxRetries - attempt

/-- The DIA price cache: symbol → price (JS float as `ℚ`), absent entries
are `none`. -/
def DiaPrices := String → Option ℚ

/-- The estimated-profit overwrite at the top of `addToExecutionQueue`:
with a cached price, `parseUnits((price * tokenAmount * 0.01).toFixed(6), 6)`
where `tokenAmount = formatUnits(repayAmount, 18)` — modelled in exact
rational arithmetic with round-to-nearest for the float/`toFixed`
pipeline; without a cached price (or on any error), exactly
`parseUnits("10000", 6)`. -/
def computeEstimatedProfit (dia : DiaPrices) (tokenSymbol : String)
    (repayAmount : Nat) : Int :=
  match dia tokenSymbol with
  | some price =>
      round (price * ((repayAmount : ℚ) / 1000000000000000000) * (1 / 100) * 1000000)
  | none => 10000000000

/-- The fields of an incoming opportunity that the profit-estimation step
of `addToExecutionQueue` reads and writes. -/
structure RawOpportunity where
  tokenSymbol : String
  repayAmount : Nat
  estimatedProfit : Int
deriving DecidableEq, Repr

/-- The unconditional `opportunity.estimatedProfit = ...` assignment at the
top of `addToExecutionQueue`: the caller-supplied estimate is always
replaced before validation. -/
def overwriteEstimatedProfit (dia : DiaPrices) (opp : RawOpportunity) :
    RawOpportunity :=
  { opp with
    estimatedProfit := computeEstimatedProfit dia opp.tokenSymbol opp.repayAmount }

/-- Why the bot-side `validateOpportunity` rejects, if it does. -/
inductive BotRejection where
  | noContract
  | profitTooLow
  | liquidationUnprofitable
deriving DecidableEq, Repr

/-- The bot-side `validateOpportunity(opportunity)`: reject without a
deployed contract for the network, reject below the $5K minimum profit,
and for liquidations defer to the on-chain `calculateLiquidationProfit`
query (an external call, taken as the oracle `liqProfitable`). -/
def botValidateOpportunity (hasContract : Bool) (estimatedProfit : Int)
    (isLiquidation liqProfitable : Bool) : Option BotRejection :=
  if !hasContract then some .noContract
  else if estimatedProfit < 5000000000 then some .profitTooLow
  else if isLiquidation && !liqProfitable then some .liquidationUnprofitable
  else none

/-! ## Analytics model: `InstitutionalAnalytics` -/

/-- One step of the `forEach` in `calculateDrawdownMetrics`: accumulate the
running cumulative P&L, its peak, and the maximal relative drawdown
`(peak - runningPnL) / peak` (0 while the peak is not positive). -/
def drawdownStep (acc : ℚ × ℚ × ℚ) (p : ℚ) : ℚ × ℚ × ℚ :=
  let running := acc.1 + p
  let peak := max acc.2.1 running
  let dd := if 0 < peak then (peak - running) / peak else 0
  (running, peak, max acc.2.2 dd)

/-- Models `calculateDrawdownMetrics()`: recompute `maxDrawdown` and
`currentDrawdown` from the retained execution history's `actualProfit`
sequence (JS floats as `ℚ`); with fewer than two retained records the
metrics are left at their previous values. -/
def calculateDrawdownMetrics (prevMax prevCurrent : ℚ) (history : List ℚ) :
    ℚ × ℚ :=
  if history.length < 2 then (prevMax, prevCurrent)
  else
    let r := history.foldl drawdownStep (0, 0, 0)
    (r.2.2, if 0 < r.2.1 then (r.2.1 - r.1) / r.2.1 else 0)

/-! ## Concrete fixtures used by the witness and counterexample theorems -/

/-- A deployer-like executor state: WHALE tier, default 50 bps fee rate,
all metrics zero. -/
def sampleExecutorState : ExecutorState where
  user :=
    { tier := .WHALE
      totalVolume := 0
      totalProfit := 0
      successfulOperations := 0
      failedOperations := 0
      lastOperationTime := 0 }
  platformFeeRate := 50
  totalVolumeProcessed := 0
  totalProfitsGenerated := 0
  totalOperationsExecuted := 0

/-- A fresh risk state as built by the constructor (with `lastResetTime`
fixed at 0). -/
def freshRiskState : RiskState where
  dailyVolume := 0
  recentLosses := []
  circuitBreakerActive := false
  circuitBreakerReason := none
  circuitBreakerTimestamp := none
  lastResetTime := 0
  currentOperations := 0
  failureCount := 0
  totalOperations := 0
  marketCondition := "normal"

/-- A risk state reachable through `recordExecution` after 20 operations of
which one failed with a catastrophic loss: `activateEmergencyProtocol` has
set `circuitBreakerActive`, the loss is recorded, and the failure rate
1/20 is below the 10% systemic threshold. -/
def emergencyStopState : RiskState where
  dailyVolume := 0
  recentLosses := [900000]
  circuitBreakerActive := true
  circuitBreakerReason := some "Large loss detected"
  circuitBreakerTimestamp := none
  lastResetTime := 1000000
  currentOperations := 0
  failureCount := 1
  totalOperations := 20
  marketCondition := "normal"

/-- A calm market sample: low volatility, high liquidity, low congestion. -/
def calmSample : MarketSample where
  volatility := 10
  liquidity := 90
  congestion := 10

/-- Calm cached market metrics: no profit-threshold scaling applies. -/
def calmMetrics : MarketMetrics where
  volatilityScore := 0
  networkCongestion := 0

/-- The (LOW, $500) opportunity of the priority-ordering scenario
(6-decimal units). -/
def oppLow500 : QueuedOpportunity where
  priority := .LOW
  estimatedProfit := 500000000

/-- The (HIGH, $100) opportunity of the priority-ordering scenario. -/
def oppHigh100 : QueuedOpportunity where
  priority := .HIGH
  estimatedProfit := 100000000

/-- The (HIGH, $900) opportunity of the priority-ordering scenario. -/
def oppHigh900 : QueuedOpportunity where
  priority := .HIGH
  estimatedProfit := 900000000

/-- A bot state with one queued opportunity and zeroed stats. -/
def initialBotState : BotState where
  executionQueue := [oppLow500]
  totalExecuted := 0
  totalProfit := 0
  successfulExecutions := 0
  failedExecutions := 0

/-! ## Theorems -/

/-- C1: For every flash-loan execution of the settlement unit
(`receiveFlashLoan`), if the final balance returned by the strategy is
strictly less than the borrowed amount plus the lending fee, or the gross
profit (final balance minus repayment) is below the minimum profit
threshold, the entire unit reverts: no token transfer is made and no user
or global metric (`totalVolume`, `totalProfit`, `successfulOperations`,
`totalVolumeProcessed`, `totalProfitsGenerated`,
`totalOperationsExecuted`) changes — the state is exactly as if the call
never started. -/
theorem receiveFlashLoan_reverts_on_shortfall (s : ExecutorState)
    (amount feeAmount finalBalance now : Nat)
    (h : finalBalance < amount + feeAmount ∨
      finalBalance - (amount + feeAmount) < PROFIT_THRESHOLD) :
    runReceiveFlashLoan s amount feeAmount finalBalance now = (s, [], false) := by
  simp only [runReceiveFlashLoan, receiveFlashLoan]
  rcases h with h | h
  · rw [if_pos h]
  · rcases Nat.lt_or_ge finalBalance (amount + feeAmount) with h2 | h2
    · rw [if_pos h2]
    · rw [if_neg (Nat.not_lt.mpr h2), if_pos h]

/-- Witness for C1: a concrete shortfall (final balance 999000 against a
repayment of 1000100) leaves the sample state untouched. -/
theorem receiveFlashLoan_reverts_on_shortfall_witness :
    (999000 < 1000000 + 100 ∨ 999000 - (1000000 + 100) < PROFIT_THRESHOLD) ∧
    runReceiveFlashLoan sampleExecutorState 1000000 100 999000 7
      = (sampleExecutorState, [], false) :=
  ⟨Or.inl (by decide),
   receiveFlashLoan_reverts_on_shortfall sampleExecutorState 1000000 100 999000 7
     (Or.inl (by decide))⟩

/-- C2 (refuting evidence): `validateOpportunity` never reads the
pre-existing `riskState.circuitBreakerActive` flag, so in the reachable
state `emergencyStopState` — breaker activated by the emergency-loss path,
failure rate 1/20 below the 10% systemic threshold — an ordinary
opportunity is admitted (`passed = true`) while the breaker is active,
contradicting the claim that an active circuit breaker blocks all new
admissions. -/
theorem validateOpportunity_admits_with_active_breaker :
    emergencyStopState.circuitBreakerActive = true ∧
    (validateOpportunity defaultRiskLimits calmMetrics emergencyStopState
        1000000 calmSample
        { amount := 500000000000, estimatedProfit := 6000000000 }).1.passed
      = true := by
  constructor
  · rfl
  · norm_num [validateOpportunity, defaultRiskLimits, calmMetrics,
      emergencyStopState, calmSample, rejectWith, resetDailyLimitsIfNeeded,
      calculateAdjustedProfitThreshold, assessMarketConditions,
      detectSystemicRisk, assessGasConditions, detectSuspiciousLossPattern,
      activateCircuitBreaker, dayMs]

/-- C3: the rolling daily volume is reset at most once per elapsed
24-hour window: two calls of `resetDailyLimitsIfNeeded` separated by less
than 24 hours never both observe a reset, and any call at least 24 hours
after the last reset performs exactly one full reset — `dailyVolume` set
to zero and `lastResetTime` set to the call time, never a partial one. -/
theorem resetDailyLimits_once_per_window (st : RiskState) (t1 t2 : Nat)
    (hlt : t2 - t1 < dayMs) :
    (¬(resetOccurs st t1 = true ∧
        resetOccurs (resetDailyLimitsIfNeeded st t1) t2 = true))
    ∧ ∀ (st2 : RiskState) (now : Nat), dayMs ≤ now - st2.lastResetTime →
        resetDailyLimitsIfNeeded st2 now
          = { st2 with dailyVolume := 0, lastResetTime := now } := by
  constructor
  · rintro ⟨h1, h2⟩
    simp only [resetOccurs, decide_eq_true_eq] at h1 h2
    rw [resetDailyLimitsIfNeeded, if_pos h1] at h2
    simp only at h2
    omega
  · intro st2 now h
    rw [resetDailyLimitsIfNeeded, if_pos h]

/-- Witness for C3: two calls at times 86400000 and 86401000 (1 second
apart) on a state last reset at time 0. -/
theorem resetDailyLimits_once_per_window_witness :
    (86401000 - 86400000 < dayMs) ∧
    ((¬(resetOccurs freshRiskState 86400000 = true ∧
        resetOccurs (resetDailyLimitsIfNeeded freshRiskState 86400000) 86401000 = true))
      ∧ ∀ (st2 : RiskState) (now : Nat), dayMs ≤ now - st2.lastResetTime →
          resetDailyLimitsIfNeeded st2 now
            = { st2 with dailyVolume := 0, lastResetTime := now }) :=
  ⟨by decide,
   resetDailyLimits_once_per_window freshRiskState 86400000 86401000 (by decide)⟩

/-- Closed form of `executeWithRetryFail`: starting at attempt `a`, the
always-failing retry loop makes `maxRetries - a + 1` attempts (each one
incrementing `failedExecutions`), sleeps `retryDelayMs * n` after each
non-final attempt `n`, bumps `totalExecuted` once at the end, and leaves
every other field — in particular the execution queue — unchanged. -/
theorem executeWithRetryFail_spec (cfg : RetryConfig) :
    ∀ (k a : Nat) (s : BotState), cfg.maxRetries - a = k →
      executeWithRetryFail cfg s a =
        ({ s with
            failedExecutions := s.failedExecutions + (cfg.maxRetries - a + 1)
            totalExecuted := s.totalExecuted + 1 },
         (List.range' a (cfg.maxRetries - a)).map
           (fun n => cfg.retryDelayMs * n)) := by
  intro k
  induction k with
  | zero =>
    intro a s hk
    rw [executeWithRetryFail, if_neg (by omega)]
    rw [hk]
    rfl
  | succ k ih =>
    intro a s hk
    have h1 : cfg.maxRetries - (a + 1) = k := by omega
    rw [executeWithRetryFail, if_pos (by omega)]
    rw [ih (a + 1) _ h1]
    rw [hk, h1, List.range'_succ]
    simp only [List.map_cons, Prod.mk.injEq, BotState.mk.injEq]
    refine ⟨⟨?_, ?_, ?_, ?_, ?_⟩, ?_⟩ <;> first | trivial | omega

/-- C4: an opportunity whose every execution attempt fails is attempted
exactly `maxRetries` times in total (default 3) — not more, not fewer —
with backoff delay `retryDelayMs * attemptNumber` after each non-final
attempt, and is then finalized as failed (`failedExecutions` counts every
attempt, `totalExecuted` is bumped once, `successfulExecutions` is
untouched) without being re-enqueued (the execution queue is unchanged). -/
theorem retry_exhaustion (cfg : RetryConfig) (s : BotState)
    (h : 1 ≤ cfg.maxRetries) :
    (executeWithRetryFail cfg s 1).1.failedExecutions
        = s.failedExecutions + cfg.maxRetries
    ∧ (executeWithRetryFail cfg s 1).2
        = (List.range' 1 (cfg.maxRetries - 1)).map (fun n => cfg.retryDelayMs * n)
    ∧ (executeWithRetryFail cfg s 1).1.executionQueue = s.executionQueue
    ∧ (executeWithRetryFail cfg s 1).1.successfulExecutions
        = s.successfulExecutions
    ∧ (executeWithRetryFail cfg s 1).1.totalExecuted = s.totalExecuted + 1 := by
  rw [executeWithRetryFail_spec cfg (cfg.maxRetries - 1) 1 s rfl]
  refine ⟨by simp only; omega, rfl, rfl, rfl, rfl⟩

/-- Witness for C4 at the constructor defaults `maxRetries = 3`,
`retryDelayMs = 3000`: three attempts, delays 3000 and 6000, queue and
success counter unchanged. -/
theorem retry_exhaustion_witness :
    (1 ≤ (3 : Nat)) ∧
    ((executeWithRetryFail ⟨3, 3000⟩ initialBotState 1).1.failedExecutions
        = initialBotState.failedExecutions + 3
      ∧ (executeWithRetryFail ⟨3, 3000⟩ initialBotState 1).2
          = (List.range' 1 (3 - 1)).map (fun n => 3000 * n)
      ∧ (executeWithRetryFail ⟨3, 3000⟩ initialBotState 1).1.executionQueue
          = initialBotState.executionQueue
      ∧ (executeWithRetryFail ⟨3, 3000⟩ initialBotState 1).1.successfulExecutions
          = initialBotState.successfulExecutions
      ∧ (executeWithRetryFail ⟨3, 3000⟩ initialBotState 1).1.totalExecuted
          = initialBotState.totalExecuted + 1) :=
  ⟨by decide, retry_exhaustion ⟨3, 3000⟩ initialBotState (by decide)⟩

/-- C5 counterexample: an opportunity whose amount exceeds the
position-size ceiling but whose `estimatedProfit` field is zero (a JS
falsy value) takes the early `Invalid opportunity format` return, so the
returned reasons list contains no size-related reason — refuting the
claim's "regardless of the values of all other fields". -/
theorem oversize_zero_profit_no_size_reason :
    defaultRiskLimits.maxPositionSize < 2000000000000 ∧
    (validateOpportunity defaultRiskLimits calmMetrics freshRiskState
        1000000 calmSample
        { amount := 2000000000000, estimatedProfit := 0 }).1.reasons
      = ["Invalid opportunity format"] ∧
    ¬("Position size exceeds institutional limit" ∈
        (validateOpportunity defaultRiskLimits calmMetrics freshRiskState
          1000000 calmSample
          { amount := 2000000000000, estimatedProfit := 0 }).1.reasons) := by
  refine ⟨by norm_num [defaultRiskLimits], by norm_num [validateOpportunity], ?_⟩
  norm_num [validateOpportunity]
  decide

/-- C5 (amended): for every opportunity that carries a non-zero estimated
profit and whose amount exceeds the configured position-size ceiling,
`validateOpportunity` returns `passed = false` and the reasons list
contains the size-related reason, regardless of all other fields, the
risk state, the cached market metrics and the sampled market conditions. -/
theorem oversize_rejected_with_size_reason (limits : RiskLimits)
    (metrics : MarketMetrics) (st : RiskState) (now : Nat)
    (sample : MarketSample) (opp : RMOpportunity)
    (hp : opp.estimatedProfit ≠ 0) (hsz : limits.maxPositionSize < opp.amount) :
    (validateOpportunity limits metrics st now sample opp).1.passed = false ∧
    "Position size exceeds institutional limit" ∈
      (validateOpportunity limits metrics st now sample opp).1.reasons := by
  have ha : ¬(opp.amount = 0 ∨ opp.estimatedProfit = 0) := by
    rintro (h | h)
    · omega
    · exact hp h
  simp only [validateOpportunity]
  rw [if_neg ha, if_pos hsz]
  split_ifs <;> simp [rejectWith, List.mem_append]

/-- Witness for C5 (amended): an oversize opportunity with a non-zero
estimated profit is rejected with the size reason. -/
theorem oversize_rejected_with_size_reason_witness :
    ((6000000000 : Nat) ≠ 0 ∧ defaultRiskLimits.maxPositionSize < 2000000000000) ∧
    ((validateOpportunity defaultRiskLimits calmMetrics freshRiskState
        1000000 calmSample
        { amount := 2000000000000, estimatedProfit := 6000000000 }).1.passed = false ∧
      "Position size exceeds institutional limit" ∈
        (validateOpportunity defaultRiskLimits calmMetrics freshRiskState
          1000000 calmSample
          { amount := 2000000000000, estimatedProfit := 6000000000 }).1.reasons) :=
  ⟨⟨by decide, by decide⟩,
   oversize_rejected_with_size_reason defaultRiskLimits calmMetrics freshRiskState
     1000000 calmSample { amount := 2000000000000, estimatedProfit := 6000000000 }
     (by decide) (by decide)⟩

/-- The queue comparator order is transitive. -/
theorem queueLE_trans : ∀ (a b c : QueuedOpportunity),
    queueLE a b = true → queueLE b c = true → queueLE a c = true := by
  intro a b c h1 h2
  simp only [queueLE, Bool.or_eq_true, Bool.and_eq_true, decide_eq_true_eq,
    beq_iff_eq] at h1 h2 ⊢
  omega

/-- The queue comparator order is total. -/
theorem queueLE_total : ∀ (a b : QueuedOpportunity),
    (queueLE a b || queueLE b a) = true := by
  intro a b
  simp only [queueLE, Bool.or_eq_true, Bool.and_eq_true, decide_eq_true_eq,
    beq_iff_eq]
  omega

/-- C6: the execution queue is ordered first by priority class (HIGH
before MEDIUM before LOW) and tie-broken by estimated profit descending
(every enqueue leaves the queue pairwise ordered under the source
comparator), dequeue always removes the head, and in particular enqueueing
(LOW, $500), (HIGH, $100), (HIGH, $900) in any of the six orders yields
the dequeue order (HIGH, $900), (HIGH, $100), (LOW, $500). -/
theorem queue_priority_ordering :
    (∀ (q : List QueuedOpportunity) (opp : QueuedOpportunity),
        List.Pairwise (fun a b => queueLE a b = true) (enqueue q opp))
  ∧ (∀ (x : QueuedOpportunity) (t : List QueuedOpportunity),
        dequeue (x :: t) = some (x, t))
  ∧ [oppLow500, oppHigh100, oppHigh900].foldl enqueue []
      = [oppHigh900, oppHigh100, oppLow500]
  ∧ [oppLow500, oppHigh900, oppHigh100].foldl enqueue []
      = [oppHigh900, oppHigh100, oppLow500]
  ∧ [oppHigh100, oppLow500, oppHigh900].foldl enqueue []
      = [oppHigh900, oppHigh100, oppLow500]
  ∧ [oppHigh100, oppHigh900, oppLow500].foldl enqueue []
      = [oppHigh900, oppHigh100, oppLow500]
  ∧ [oppHigh900, oppLow500, oppHigh100].foldl enqueue []
      = [oppHigh900, oppHigh100, oppLow500]
  ∧ [oppHigh900, oppHigh100, oppLow500].foldl enqueue []
      = [oppHigh900, oppHigh100, oppLow500] := by
  refine ⟨fun q opp => List.sorted_mergeSort queueLE_trans queueLE_total (q ++ [opp]),
    fun x t => rfl, ?_, ?_, ?_, ?_, ?_, ?_⟩
  all_goals
    simp [enqueue, sortQueue, List.mergeSort, List.merge, queueLE,
      oppLow500, oppHigh100, oppHigh900, priorityOrder]

/-- C7: max drawdown over the retained history is the largest
peak-to-trough decline of the running cumulative P&L as a fraction of the
peak; for the recorded profit sequence [+100, +50, −80, +20] (peak 150,
trough after the peak 70) it equals (150 − 70)/150 = 8/15 ≈ 53.3%. -/
theorem maxDrawdown_example :
    (calculateDrawdownMetrics 0 0 [100, 50, -80, 20]).1 = (150 - 70) / 150 ∧
    ((150 - 70 : ℚ) / 150 = 8 / 15) := by
  constructor
  · norm_num [calculateDrawdownMetrics, drawdownStep, max_def]
  · norm_num

/-- C8: the platform fee on a settled unit equals gross profit × (base
fee rate reduced by the user's tier discount) / 10000, with WHALE paying
50% of the base rate, INSTITUTIONAL 70%, PREMIUM 90% and STANDARD 100%;
in particular, with base rate 50 bps and a WHALE-tier user the fee on a
$10,000 gross profit (6-decimal units) is exactly $25. -/
theorem fee_tier_schedule :
    (∀ (tier : UserTier) (baseRate grossProfit : Nat),
        calculateFees tier baseRate grossProfit
          = specPlatformFee tier baseRate grossProfit)
  ∧ calculateFees .WHALE 50 10000000000 = 25000000 := by
  constructor
  · intro tier baseRate grossProfit
    cases tier <;>
      simp [calculateFees, specPlatformFee, tierRatePercent,
        Nat.mul_div_cancel baseRate (show 0 < 100 by norm_num)]
  · decide

/-- C9: for every user tier and every fee rate accepted by
`setPlatformFeeRate` (at most 1000 basis points), `_calculateFees`
returns a fee no larger than the gross profit, so the subtraction
`netProfit = grossProfit - fees` in `_processFlashLoanComplete` never
underflows: the fee plus the net profit reassemble the gross profit
exactly. -/
theorem fees_le_grossProfit (s s2 : ExecutorState) (newRate : Nat)
    (h : setPlatformFeeRate s newRate = .ok s2) (tier : UserTier)
    (grossProfit : Nat) :
    calculateFees tier s2.platformFeeRate grossProfit ≤ grossProfit ∧
    calculateFees tier s2.platformFeeRate grossProfit
        + (grossProfit - calculateFees tier s2.platformFeeRate grossProfit)
      = grossProfit := by
  have hr : s2.platformFeeRate ≤ 1000 := by
    unfold setPlatformFeeRate at h
    by_cases hc : newRate ≤ 1000
    · rw [if_pos hc] at h
      injection h with h2
      rw [← h2]
      exact hc
    · rw [if_neg hc] at h
      simp at h
  have key : ∀ (g r : Nat), r ≤ 10000 → g * r / 10000 ≤ g := by
    intro g r hr10
    calc g * r / 10000 ≤ g * 10000 / 10000 :=
          Nat.div_le_div_right (Nat.mul_le_mul_left g hr10)
      _ = g := Nat.mul_div_cancel g (by norm_num)
  have h1 : calculateFees tier s2.platformFeeRate grossProfit ≤ grossProfit := by
    cases tier <;> simp only [calculateFees] <;> exact key _ _ (by omega)
  exact ⟨h1, Nat.add_sub_cancel' h1⟩

/-- Witness for C9: setting the rate to 50 bps succeeds and the WHALE fee
on a $10,000 gross profit stays below the gross profit. -/
theorem fees_le_grossProfit_witness :
    (setPlatformFeeRate sampleExecutorState 50
        = .ok { sampleExecutorState with platformFeeRate := 50 }) ∧
    (calculateFees .WHALE
        ({ sampleExecutorState with platformFeeRate := 50 }).platformFeeRate
        10000000000 ≤ 10000000000 ∧
      calculateFees .WHALE
          ({ sampleExecutorState with platformFeeRate := 50 }).platformFeeRate
          10000000000
        + (10000000000 - calculateFees .WHALE
            ({ sampleExecutorState with platformFeeRate := 50 }).platformFeeRate
            10000000000)
      = 10000000000) :=
  ⟨rfl,
   fees_le_grossProfit sampleExecutorState
     { sampleExecutorState with platformFeeRate := 50 } 50 rfl .WHALE 10000000000⟩

/-- C10: `addToExecutionQueue` overwrites the caller-supplied estimated
profit before validation (the overwritten value does not depend on the
incoming `estimatedProfit` field); without a cached DIA price for the
opportunity's token symbol the estimate is exactly $10,000 in 6-decimal
units, and that fallback always clears the $5,000 minimum-profit check of
the bot-side `validateOpportunity`, so an unpriced opportunity is never
rejected on the profit-threshold ground. -/
theorem dia_fallback_profit (dia : DiaPrices) (opp : RawOpportunity)
    (hasContract isLiquidation liqProfitable : Bool)
    (hnone : dia opp.tokenSymbol = none) :
    (overwriteEstimatedProfit dia opp).estimatedProfit = 10000000000
  ∧ (∀ (p : Int),
      (overwriteEstimatedProfit dia { opp with estimatedProfit := p }).estimatedProfit
        = (overwriteEstimatedProfit dia opp).estimatedProfit)
  ∧ botValidateOpportunity hasContract
        (overwriteEstimatedProfit dia opp).estimatedProfit
        isLiquidation liqProfitable ≠ some .profitTooLow := by
  have h1 : (overwriteEstimatedProfit dia opp).estimatedProfit = 10000000000 := by
    simp [overwriteEstimatedProfit, computeEstimatedProfit, hnone]
  refine ⟨h1, fun p => rfl, ?_⟩
  rw [h1]
  simp only [botValidateOpportunity]
  split_ifs with hA hB hC
  · simp
  · exact absurd hB (by norm_num)
  · simp
  · simp

/-- Witness for C10: with an empty DIA cache, a concrete opportunity gets
the exact $10,000 fallback estimate and is not rejected for low profit. -/
theorem dia_fallback_profit_witness :
    ((fun (_ : String) => (none : Option ℚ))
        ({ tokenSymbol := "WETH", repayAmount := 1000000000000000000,
           estimatedProfit := 0 } : RawOpportunity).tokenSymbol = none) ∧
    ((overwriteEstimatedProfit (fun _ => none)
        { tokenSymbol := "WETH", repayAmount := 1000000000000000000,
          estimatedProfit := 0 }).estimatedProfit = 10000000000
      ∧ (∀ (p : Int),
          (overwriteEstimatedProfit (fun _ => none)
            { tokenSymbol := "WETH", repayAmount := 1000000000000000000,
              estimatedProfit := p }).estimatedProfit
            = (overwriteEstimatedProfit (fun _ => none)
                { tokenSymbol := "WETH", repayAmount := 1000000000000000000,
                  estimatedProfit := 0 }).estimatedProfit)
      ∧ botValidateOpportunity true
            (overwriteEstimatedProfit (fun _ => none)
              { tokenSymbol := "WETH", repayAmount := 1000000000000000000,
                estimatedProfit := 0 }).estimatedProfit
            true false ≠ some .profitTooLow) :=
  ⟨rfl,
   dia_fallback_profit (fun _ => none)
     { tokenSymbol := "WETH", repayAmount := 1000000000000000000,
       estimatedProfit := 0 } true true false rfl⟩

end MoonwellFlash
